import Mathlib

/-!
Shallow embedding of the SF-Saint-Insight backend (classroom whiteboard
analysis pipeline) and verification of its specified properties.

The embedding follows the Python sources:
  * `src/backend/handlers/detector.py`  (`YOLOTextDetector.detect_text`)
  * `src/backend/handlers/llm.py`       (`GeminiWrapper.analyze_image`)
  * `src/backend/handlers/analyzer.py`  (`Analyzer.analyze`)
  * `src/backend/handlers/camera.py`    (`Camera`: stream loop, `analyze_frame`,
    `on_analysis_complete`)
  * `src/backend/handlers/ocr.py`       (the second, older `Camera` variant)
  * `src/backend/app.py`                (`analyze_region`, `process_image`)

External collaborators (the YOLO model call and the Gemini HTTP call) are
abstracted as oracles; everything the repository itself computes is embedded
as executable Lean functions.  Machine floats only appear in the sources as
pixel coordinates and normalized box fractions, which are modelled exactly
with `Int` and `ℚ`.
-/

namespace SaintInsight

/-! ## String primitives (Python `str.startswith`, `in`, slicing) -/

/-- Python `s.startswith(p)`: `p` is a prefix of `s` (by code points, as in
Python). -/
def startsWithStr (s p : String) : Bool :=
  p.toList.isPrefixOf s.toList

/-- Python `p in s`: `p` occurs as a contiguous substring of `s`. -/
def containsStr (s p : String) : Bool :=
  s.toList.tails.any (fun t => p.toList.isPrefixOf t)

/-- Python `s.lower()`: lower-case each code point. -/
def toLowerStr (s : String) : String :=
  String.mk (s.data.map Char.toLower)

/-! ## Data model -/

/-- A pixel-coordinate bounding box `[x1, y1, x2, y2]` as produced by the
detector (`detector.py`, `box.xyxy`).  The Python code applies `map(int, box)`
before any use, so integer coordinates are the faithful model. -/
structure Box where
  x1 : Int
  y1 : Int
  x2 : Int
  y2 : Int
deriving DecidableEq, Repr

/-- A candidate region, as built in `detector.py` `detect_text`
(`{"label": ..., "box": [...], "confidence": ...}`; the full-frame fallback
entry carries no confidence key). -/
structure Region where
  label : String
  box : Box
  confidence : Option ℚ
deriving DecidableEq, Repr

/-- The sort key used by both `app.py` (line 197) and `analyzer.py` (line 57):
`(box[2] - box[0]) * (box[3] - box[1])`, the pixel area. -/
def regionArea (r : Region) : Int :=
  (r.box.x2 - r.box.x1) * (r.box.y2 - r.box.y1)

/-- Frame dimensions (`img.shape[:2]` yields `(height, width)`). -/
structure Frame where
  width : Nat
  height : Nat
deriving DecidableEq, Repr

/-- Outcome of one call into the Gemini describer on a concrete image: the
call either raises an exception or returns a string (possibly error-tagged
with a leading `"Error:"`, which is what `GeminiWrapper.analyze_image`
produces after its retries are exhausted). -/
inductive DescriberOutcome where
  | raises
  | returns (s : String)
deriving DecidableEq, Repr

/-- The describer collaborator, keyed by the (clamped, absolute) crop box of
the image that is sent to it; the full frame is the box `(0,0,w,h)`. -/
abbrev Describer := Box → DescriberOutcome

/-! ## Detector (`detector.py` `detect_text`) -/

/-- Outcome of the YOLO stage inside `detect_text`: `failure` covers both
`self.model is None` (line 20) and an exception from the model call (line 63),
each of which makes `detect_text` return `[]`; `found ds` is the detection
list after the class filter (lines 34-54). -/
inductive DetectorOutcome where
  | failure
  | found (ds : List Region)

/-- The full-frame region `{"label": "Full Frame", "box": [0, 0, w, h]}` used
by the fallbacks in `detector.py` line 60 and `app.py` line 191. -/
def fullFrameRegion (frame : Frame) : Region :=
  { label := "Full Frame"
    box := ⟨0, 0, (frame.width : Int), (frame.height : Int)⟩
    confidence := none }

/-- Embedding of `YOLOTextDetector.detect_text` (detector.py lines 18-65): a failed model
yields `[]`; zero surviving detections fall back to a single full-frame
region. -/
def detect_text (frame : Frame) (o : DetectorOutcome) : List Region :=
  match o with
  | .failure => []
  | .found ds => if ds.isEmpty then [fullFrameRegion frame] else ds

/-! ## Region ranking (shared by `app.py` lines 196-201 and `analyzer.py`
lines 56-61)

Python's `sorted(regions, key=area, reverse=True)` is a stable sort,
descending on the key, ties kept in original order.  It is embedded as a
stable insertion sort with exactly that contract. -/

/-- Insert `a` in front of the first element of strictly smaller area;
elements of equal or larger area stay in front of `a`, which models the
stability of Python's `sorted` (later elements go after equal keys). -/
def insertByAreaDesc (a : Region) : List Region → List Region
  | [] => [a]
  | b :: bs =>
    if regionArea b ≤ regionArea a then a :: b :: bs
    else b :: insertByAreaDesc a bs

/-- Embedding of `sorted(regions, key=lambda r: area(r), reverse=True)`. -/
def sortRegionsByArea (rs : List Region) : List Region :=
  rs.foldr insertByAreaDesc []

/-- Embedding of `sorted_regions[:min(2, len(sorted_regions))]` — the top-`max_regions`
(2) selection of `app.py` line 201 / `analyzer.py` line 61. -/
def regionsToAnalyze (rs : List Region) : List Region :=
  (sortRegionsByArea rs).take (min 2 rs.length)

/-! ## Gemini wrapper (`llm.py` `GeminiWrapper.analyze_image`) -/

/-- Outcome of the `k`-th raw API attempt (0-based): `.ok s` is a successful
`response.text` (or the "Unexpected response format" string, which the code
returns without retrying), `.error e` is an exception with message `e`. -/
abbrev AttemptOracle := Nat → Except String String

/-- The retry loop of `analyze_image` (llm.py lines 59-95), with `remaining`
the number of retries still allowed (`max_retries - retry_count`) and `rc`
the current `retry_count`.  Returns the final string together with the list
of backoff waits (`2 ** retry_count` seconds each, line 90) performed. -/
def analyzeImageAux (oracle : AttemptOracle) : Nat → Nat → String × List Nat
  | remaining, rc =>
    match oracle rc with
    | .ok s => (s, [])
    | .error e =>
      match remaining with
      | 0 => ("Error: " ++ e, [])
      | r + 1 =>
        let wait := 2 ^ (rc + 1)
        let p := analyzeImageAux oracle r (rc + 1)
        (p.1, wait :: p.2)

/-- Embedding of `GeminiWrapper.analyze_image(image, prompt)` with the constructor default
`max_retries` (llm.py line 11, default 2): starts at `retry_count = 0`. -/
def analyze_image (oracle : AttemptOracle) (max_retries : Nat := 2) :
    String × List Nat :=
  analyzeImageAux oracle max_retries 0

/-! ## Subject markers (`app.py` lines 90-98 / 226-230, `analyzer.py`
lines 103-111) -/

/-- The four-way subject marker of `analyze_region` / `Analyzer.analyze`. -/
def subjectMarker (response : String) : String :=
  let lower := toLowerStr response
  if containsStr lower "math" || containsStr lower "equation" then "📐 "
  else if containsStr lower "science" || containsStr lower "physics" then "🔬 "
  else if containsStr lower "history" || containsStr lower "date" then "📜 "
  else if containsStr lower "english" || containsStr lower "literature" then "📚 "
  else ""

/-- The two-way marker of the whole-image fallback branch of `process_image`
(app.py lines 226-230): it only has the math and science cases. -/
def fallbackSubjectMarker (response : String) : String :=
  let lower := toLowerStr response
  if containsStr lower "math" || containsStr lower "equation" then "📐 "
  else if containsStr lower "science" || containsStr lower "physics" then "🔬 "
  else ""

/-! ## Server result shape (`app.py`) -/

/-- The normalized `boundingBox` dict sent to the frontend. -/
structure BBox where
  x : ℚ
  y : ℚ
  width : ℚ
  height : ℚ
deriving DecidableEq, Repr

/-- One entry of the `detections` list returned by `/process_image`.
`confidence := none` models a dict without the `"confidence"` key (the
whole-image fallback dict of app.py lines 232-238 omits it). -/
structure Detection where
  id : Nat
  title : String
  fact : String
  full_text : String
  boundingBox : BBox
  confidence : Option ℚ
deriving DecidableEq, Repr

/-- The clamping of app.py lines 59-63: `max(0, ·)` on the top-left corner,
`min(w, ·)` / `min(h, ·)` on the bottom-right corner. -/
def clampToFrame (frame : Frame) (b : Box) : Box :=
  ⟨max 0 b.x1, max 0 b.y1,
   min (frame.width : Int) b.x2, min (frame.height : Int) b.y2⟩

/-- Embedding of `analyze_region(img, box, region_index)` (app.py lines 52-128): clamp the
box, skip degenerate boxes, send the crop to the describer, skip exceptions
and error-tagged responses, and otherwise build the detection dict.  The
`display_label` local is computed exactly as in the source (lines 100-104)
and, as in the source, is not used in the returned dict. -/
def analyze_region (describe : Describer) (frame : Frame) (box : Box)
    (region_index : Nat) : Option Detection :=
  let c := clampToFrame frame box
  if c.x2 ≤ c.x1 ∨ c.y2 ≤ c.y1 then none
  else
    match describe c with
    | .raises => none
    | .returns response =>
      if startsWithStr response "Error:" then none
      else
        let subject_marker := subjectMarker response
        let display_label :=
          if response.length > 80 then
            subject_marker ++ response.take 77 ++ "..."
          else subject_marker ++ response
        let _ := display_label
        some
          { id := region_index + 1
            title := subject_marker ++ "Whiteboard Analysis"
            fact :=
              if response.length < 100 then response
              else response.take 97 ++ "..."
            full_text := response
            boundingBox :=
              { x := (c.x1 : ℚ) / (frame.width : ℚ)
                y := (c.y1 : ℚ) / (frame.height : ℚ)
                width := ((c.x2 - c.x1 : Int) : ℚ) / (frame.width : ℚ)
                height := ((c.y2 - c.y1 : Int) : ℚ) / (frame.height : ℚ) }
            confidence := some 1 }

/-- The detection dict built in the whole-image fallback branch of
`process_image` (app.py lines 232-238): hard-coded box, no confidence key. -/
def wholeImageFallbackDetection (response : String) : Detection :=
  { id := 1
    title := fallbackSubjectMarker response ++ "Whiteboard Analysis"
    fact :=
      if response.length < 100 then response
      else response.take 97 ++ "..."
    full_text := response
    boundingBox := { x := 1/10, y := 1/10, width := 8/10, height := 8/10 }
    confidence := none }

/-! ## The `/process_image` endpoint (`app.py` lines 132-258) -/

/-- The observable shape of the request body as seen by the handler:
`request.json` may raise (malformed body, propagating to the outer
`except`), the `image` field may be missing, and the base64/`imdecode` step
may fail (exception or a `None` image, both answered with the same 400). -/
inductive ReqBody where
  | raisesOnAccess
  | noImage
  | image (decoded : Option Frame)

/-- The handler's response, by branch. -/
inductive ProcResponse where
  | busy
  | badRequest (msg : String)
  | success (processingTime : ℚ) (detections : List Detection)
  | serverError
deriving DecidableEq, Repr

/-- HTTP status code of each response branch. -/
def ProcResponse.code : ProcResponse → Nat
  | .busy => 429
  | .badRequest _ => 400
  | .success _ _ => 200
  | .serverError => 500

/-- The `"status"` field of each response's JSON payload. -/
def ProcResponse.statusField : ProcResponse → String
  | .busy => "busy"
  | .badRequest _ => "error"
  | .success _ _ => "success"
  | .serverError => "error"

/-- The body of `process_image` from the successful decode onward (app.py
lines 183-249): YOLO detection, app-level full-frame substitution for an
empty region list (line 191), ranking and top-2 selection, the per-region
loop (lines 206-212), and the whole-image fallback when no region analysis
succeeded (lines 215-238).  A describer exception in the fallback branch is
not caught locally and lands in the outer `except` (500). -/
def process_image_core (describe : Describer) (det : DetectorOutcome)
    (elapsed : ℚ) (frame : Frame) : ProcResponse :=
  let regions := detect_text frame det
  let regions :=
    if regions.isEmpty then [fullFrameRegion frame] else regions
  let selected := regionsToAnalyze regions
  let detections :=
    selected.enum.filterMap
      (fun p => analyze_region describe frame p.2.box p.1)
  if detections.isEmpty then
    match describe ⟨0, 0, (frame.width : Int), (frame.height : Int)⟩ with
    | .raises => .serverError
    | .returns response =>
      if startsWithStr response "Error:" then .success elapsed []
      else .success elapsed [wholeImageFallbackDetection response]
  else .success elapsed detections

/-- Embedding of `process_image` (app.py lines 132-258).  Inputs: the describer and
detector oracles, the measured elapsed time (the `processingTime` float),
the global `is_analyzing` flag on entry, and the request body.  Returns the
response together with the value of `is_analyzing` after the handler
returns; the `finally: is_analyzing = False` (line 258) runs on every
path, including the 429 early return. -/
def process_image (describe : Describer) (det : DetectorOutcome) (elapsed : ℚ)
    (is_analyzing : Bool) (body : ReqBody) : ProcResponse × Bool :=
  let response : ProcResponse :=
    if is_analyzing then .busy
    else
      match body with
      | .raisesOnAccess => .serverError
      | .noImage => .badRequest "No image data provided"
      | .image none => .badRequest "Could not decode image"
      | .image (some frame) => process_image_core describe det elapsed frame
  (response, false)

/-! ## Threaded analyzer (`analyzer.py` `Analyzer.analyze`) -/

/-- One result dict of `Analyzer.analyze` (analyzer.py lines 119-125). -/
structure CamResult where
  label : String
  box : Box
  full_text : String
  region_index : Nat
  confidence : ℚ
deriving DecidableEq, Repr

/-- The per-region body of the loop in `Analyzer.analyze` (analyzer.py
lines 65-130): margin-10 clamp, degenerate-box skip, describer call,
error-tagged skip, result construction.  `none` models `continue`. -/
def analyzer_region_step (describe : Describer) (frame : Frame)
    (idx : Nat) (region : Region) : Option CamResult :=
  let margin : Int := 10
  let x1 := max 0 (region.box.x1 - margin)
  let y1 := max 0 (region.box.y1 - margin)
  let x2 := min (frame.width : Int) (region.box.x2 + margin)
  let y2 := min (frame.height : Int) (region.box.y2 + margin)
  if x2 ≤ x1 ∨ y2 ≤ y1 then none
  else
    match describe ⟨x1, y1, x2, y2⟩ with
    | .raises => none
    | .returns response =>
      if startsWithStr response "Error:" then none
      else
        let marker := subjectMarker response
        let display_label :=
          if response.length > 80 then marker ++ response.take 77 ++ "..."
          else marker ++ response
        some
          { label := display_label
            box := region.box
            full_text := response
            region_index := idx
            confidence := region.confidence.getD 0 }

/-- Embedding of `Analyzer.analyze` (analyzer.py lines 38-140): run the detector, and if
it produced no regions, deliver an empty result list to the callback (lines
45-50) — there is no full-frame fallback in this variant; otherwise rank
regions, select the top two and analyze each, skipping failures. -/
def analyzer_analyze (describe : Describer) (frame : Frame)
    (det : DetectorOutcome) : List CamResult :=
  let regions := detect_text frame det
  if regions.isEmpty then []
  else
    (regionsToAnalyze regions).enum.filterMap
      (fun p => analyzer_region_step describe frame p.1 p.2)

/-! ## Camera scheduler state machines (`camera.py` and `ocr.py`) -/

/-- The fields of `camera.py`'s `Camera` touched by `on_analysis_complete`. -/
structure CameraState where
  results : List CamResult
  analyzing : Bool
  last_analysis_time : ℚ
deriving DecidableEq, Repr

/-- Embedding of `Camera.on_analysis_complete` (camera.py lines 63-68): store the new
results, clear `analyzing`, and stamp `last_analysis_time = time.time()`. -/
def on_analysis_complete (st : CameraState) (now : ℚ)
    (results : List CamResult) : CameraState :=
  { results := results, analyzing := false, last_analysis_time := now }

/-- The fields of `ocr.py`'s `Camera` touched by its callback; the published
results live in the `Display` collaborator. -/
structure OcrCameraState where
  display_results : List CamResult
  analyzing : Bool
  last_analysis_time : ℚ
deriving DecidableEq, Repr

/-- Embedding of `Camera.on_analysis_complete` of the `ocr.py` variant (lines 43-46):
publish the results and clear `analyzing`; `last_analysis_time` is not
touched (and the method receives no clock). -/
def ocr_on_analysis_complete (st : OcrCameraState)
    (results : List CamResult) : OcrCameraState :=
  { display_results := results
    analyzing := false
    last_analysis_time := st.last_analysis_time }

/-- Scheduler-relevant state of a streaming `Camera`, plus the number of
live analyzer threads (`inFlight`), which the Python object does not track
explicitly but which the model needs to state the single-flight property. -/
structure SchedState where
  analyzing : Bool
  last_analysis_time : ℚ
  inFlight : Nat
deriving DecidableEq, Repr

/-- Events of the frame loop: one `stream` iteration that captured a frame,
or the completion callback of one analyzer thread. -/
inductive CamEvent where
  | frameTick (now : ℚ)
  | complete (now : ℚ)

/-- One step of `camera.py`'s loop.  `frameTick` is the gate at line 164:
when `now - last_analysis_time >= interval` and not `analyzing`, call
`analyze_frame`, which sets `analyzing = True` (line 56) and spawns a
thread; otherwise do nothing.  `complete` is `on_analysis_complete` run by
a finishing thread (no-op if no thread is live). -/
def camStep (interval : ℚ) (s : SchedState) (e : CamEvent) : SchedState :=
  match e with
  | .frameTick now =>
    if interval ≤ now - s.last_analysis_time ∧ s.analyzing = false then
      { s with analyzing := true, inFlight := s.inFlight + 1 }
    else s
  | .complete now =>
    if s.inFlight = 0 then s
    else
      { analyzing := false, last_analysis_time := now,
        inFlight := s.inFlight - 1 }

/-- One step of `ocr.py`'s loop (same gate, line 61), with that variant's
`analyze_frame` (lines 36-41), which spawns a thread but never sets
`analyzing`, and its `on_analysis_complete` (lines 43-46), which clears
`analyzing` but never updates `last_analysis_time`. -/
def ocrStep (interval : ℚ) (s : SchedState) (e : CamEvent) : SchedState :=
  match e with
  | .frameTick now =>
    if interval ≤ now - s.last_analysis_time ∧ s.analyzing = false then
      { s with inFlight := s.inFlight + 1 }
    else s
  | .complete _ =>
    if s.inFlight = 0 then s
    else { s with analyzing := false, inFlight := s.inFlight - 1 }

/-- Initial state: `analyzing = False`, `last_analysis_time = 0`
(camera.py lines 18-19, ocr.py lines 15-17), no thread running. -/
def initSched : SchedState :=
  { analyzing := false, last_analysis_time := 0, inFlight := 0 }

/-- Run the `camera.py` loop over a sequence of events. -/
def runCam (interval : ℚ) (es : List CamEvent) : SchedState :=
  es.foldl (camStep interval) initSched

/-- Run the `ocr.py` loop over a sequence of events. -/
def runOcr (interval : ℚ) (es : List CamEvent) : SchedState :=
  es.foldl (ocrStep interval) initSched

/-! ## Concrete sample inputs and auxiliary observables used by the theorems -/

/-- Invariant tying the `camera.py` `analyzing` flag to the number of live
analyzer threads. -/
def camInv (s : SchedState) : Prop :=
  s.inFlight = if s.analyzing then 1 else 0

/-- Sample regions with the areas of the spec's ranking test. -/
def regionA100 : Region := ⟨"whiteboard (1.00)", ⟨0, 0, 10, 10⟩, some 1⟩

def regionB50 : Region := ⟨"book (1.00)", ⟨0, 0, 10, 5⟩, some 1⟩

def regionC200 : Region := ⟨"tv (1.00)", ⟨0, 0, 20, 10⟩, none⟩

/-- Two equal-area regions (in detector order) and a smaller one, probing
the stable tie-break. -/
def tieFirst : Region := ⟨"first (1.00)", ⟨0, 0, 10, 10⟩, some 1⟩

def tieSecond : Region := ⟨"second (1.00)", ⟨0, 0, 20, 5⟩, some 1⟩

def tieSmall : Region := ⟨"small (1.00)", ⟨0, 0, 5, 10⟩, none⟩

/-- The detection produced when the whole frame is analyzed as the single
(fallback) region of the server path. -/
def fullFrameDetection (s : String) : Detection :=
  { id := 1
    title := subjectMarker s ++ "Whiteboard Analysis"
    fact := if s.length < 100 then s else s.take 97 ++ "..."
    full_text := s
    boundingBox := ⟨0, 0, 1, 1⟩
    confidence := some 1 }

/-- The `detections` payload of a response (empty for non-200 branches). -/
def ProcResponse.detections : ProcResponse → List Detection
  | .success _ ds => ds
  | _ => []

/-- A describer that fails with an error-tagged response exactly on the
crops whose right edge is at `x = 100` and succeeds elsewhere. -/
def isolationDescriber : Describer := fun b =>
  if b.x2 = 100 then .returns "Error: 429 Resource has been exhausted"
  else .returns "a solved equation"

/-- First detector region: the full 100×100 frame (area 10000, ranked
first); every crop of it has right edge 100, so its description fails. -/
def isolationRegion1 : Region := ⟨"tv (0.90)", ⟨0, 0, 100, 100⟩, some 1⟩

/-- Second detector region: a 50×50 box (area 2500, ranked second); its
description succeeds. -/
def isolationRegion2 : Region := ⟨"book (0.80)", ⟨0, 0, 50, 50⟩, some 1⟩

/-- A 90-character describer response (longer than the 80-character budget,
shorter than the server's 100-character `fact` cut-off). -/
def resp90 : String :=
  "xxxxxxxxxxxxxxxxxxxxxxxxxxxxxxxxxxxxxxxxxxxxxxxxxxxxxxxxxxxxxxxxxxxxxxxxxxxxxxxxxxxxxxxxxx"

/-- The result of the threaded analyzer step on `resp90` (no subject
keyword, so the marker is empty). -/
def cam90 : CamResult :=
  ⟨resp90.take 77 ++ "...", ⟨0, 0, 50, 50⟩, resp90, 0, 1⟩

/-- The server detection for `resp90` on a full 100×100 frame. -/
def det90 : Detection :=
  ⟨1, subjectMarker resp90 ++ "Whiteboard Analysis",
   if resp90.length < 100 then resp90 else resp90.take 97 ++ "...",
   resp90, ⟨0, 0, 1, 1⟩, some 1⟩

/-- Whether a response is the 429 busy rejection. -/
def ProcResponse.isBusy : ProcResponse → Bool
  | .busy => true
  | _ => false

/-- A describer that raises on the crop with right edge 100 (the single
detected region) and succeeds on anything else (the whole frame). -/
def fallbackDescriber : Describer := fun b =>
  if b.x2 = 100 then .raises else .returns "science diagram overview"

/-- The server detection for `"a sample caption"` on a full 50×50 frame. -/
def det50 : Detection :=
  ⟨1, subjectMarker "a sample caption" ++ "Whiteboard Analysis",
   if ("a sample caption").length < 100 then "a sample caption"
   else ("a sample caption").take 97 ++ "...",
   "a sample caption", ⟨0, 0, 1, 1⟩, some 1⟩

/-! # Theorems -/

/-! ## C1 — single analysis pass in flight -/

lemma camStep_preserves (interval : ℚ) (s : SchedState) (e : CamEvent)
    (h : camInv s) : camInv (camStep interval s e) := by
  cases e with
  | frameTick now =>
    by_cases hc : interval ≤ now - s.last_analysis_time ∧ s.analyzing = false
    · have h0 : s.inFlight = 0 := by simpa [camInv, hc.2] using h
      simp [camStep, hc, camInv, h0]
    · simpa [camStep, hc, camInv] using h
  | complete now =>
    by_cases h0 : s.inFlight = 0
    · simpa [camStep, h0, camInv] using h
    · have ha : s.analyzing = true := by
        cases hb : s.analyzing with
        | false => exact absurd (by simpa [camInv, hb] using h) h0
        | true => rfl
      have h1 : s.inFlight = 1 := by simpa [camInv, ha] using h
      simp [camStep, h0, camInv, h1]

lemma foldl_camStep_inv (interval : ℚ) :
    ∀ (es : List CamEvent) (s : SchedState), camInv s →
      camInv (es.foldl (camStep interval) s) := by
  intro es
  induction es with
  | nil => intro s h; exact h
  | cons e es ih =>
    intro s h
    exact ih _ (camStep_preserves interval s e h)

/-- C1: In the `camera.py` frame loop, at most one analysis pass is ever in
flight — for every event sequence the number of live analyzer threads is at
most 1, and a frame tick that arrives while `analyzing` is set is a silent
no-op that spawns no new thread.  The `ocr.py` variant, however, violates
this: its `analyze_frame` never sets `analyzing` and its completion callback
never updates `last_analysis_time`, so two ticks at 30s and 31s with
`analyze_interval = 30` leave two analyzer threads in flight at once. -/
theorem C1_at_most_one_pass_in_flight :
    (∀ (interval : ℚ) (es : List CamEvent), (runCam interval es).inFlight ≤ 1)
    ∧ (∀ (interval last : ℚ) (k : Nat) (now : ℚ),
        camStep interval ⟨true, last, k⟩ (.frameTick now) = ⟨true, last, k⟩)
    ∧ (runOcr 30 [.frameTick 30, .frameTick 31]).inFlight = 2 := by
  refine ⟨?_, ?_, ?_⟩
  · intro interval es
    have h := foldl_camStep_inv interval es initSched
      (by simp [camInv, initSched])
    unfold camInv at h
    rw [runCam, h]
    split <;> omega
  · intro interval last k now
    simp [camStep]
  · norm_num [runOcr, ocrStep, initSched, List.foldl]

/-! ## C3 — completion transitions -/

/-- C3: On completion, `camera.py`'s `on_analysis_complete` clears
`analyzing`, stamps `last_analysis_time` with the completion time, and
stores the new batch, fully replacing the previous one regardless of the
prior state (no incremental merge).  The `ocr.py` variant clears the flag
and replaces the batch but never updates `last_analysis_time`: a completion
from the initial state leaves the timestamp at 0. -/
theorem C3_completion_transition :
    (∀ (st : CameraState) (now : ℚ) (rs : List CamResult),
        (on_analysis_complete st now rs).analyzing = false
        ∧ (on_analysis_complete st now rs).last_analysis_time = now
        ∧ (on_analysis_complete st now rs).results = rs)
    ∧ (∀ (st st' : CameraState) (now : ℚ) (rs : List CamResult),
        on_analysis_complete st now rs = on_analysis_complete st' now rs)
    ∧ (∀ (st : OcrCameraState) (rs : List CamResult),
        (ocr_on_analysis_complete st rs).analyzing = false
        ∧ (ocr_on_analysis_complete st rs).display_results = rs
        ∧ (ocr_on_analysis_complete st rs).last_analysis_time
            = st.last_analysis_time)
    ∧ (ocr_on_analysis_complete ⟨[], false, 0⟩ []).last_analysis_time = 0 :=
  ⟨fun _ _ _ => ⟨rfl, rfl, rfl⟩, fun _ _ _ _ => rfl,
   fun _ _ => ⟨rfl, rfl, rfl⟩, rfl⟩

/-! ## C6 — bounded retry with exponential backoff -/

lemma isPrefixOf_append_self (l t : List Char) :
    l.isPrefixOf (l ++ t) = true := by
  induction l with
  | nil => simp [List.isPrefixOf]
  | cons a as ih => simp [List.isPrefixOf, ih]

/-- Strings of the form `"Error: " ++ e` are error-tagged. -/
lemma startsWithStr_error_tag (e : String) :
    startsWithStr ("Error: " ++ e) "Error:" = true := by
  unfold startsWithStr
  have h2 : ("Error: " ++ e).toList = "Error:".toList ++ (' ' :: e.toList) := by
    show ("Error: " ++ e).data = "Error:".data ++ (' ' :: e.data)
    rw [String.data_append]
    have h3 : "Error: ".data = "Error:".data ++ [' '] := by decide
    rw [h3, List.append_assoc]
    rfl
  rw [h2]
  exact isPrefixOf_append_self _ _

lemma analyzeImageAux_ok {oracle : AttemptOracle} {rc : Nat} {s : String}
    (remaining : Nat) (h : oracle rc = .ok s) :
    analyzeImageAux oracle remaining rc = (s, []) := by
  rw [analyzeImageAux, h]

lemma analyzeImageAux_error_zero {oracle : AttemptOracle} {rc : Nat}
    {e : String} (h : oracle rc = .error e) :
    analyzeImageAux oracle 0 rc = ("Error: " ++ e, []) := by
  rw [analyzeImageAux, h]

lemma analyzeImageAux_error_succ {oracle : AttemptOracle} {rc : Nat}
    {e : String} (r : Nat) (h : oracle rc = .error e) :
    analyzeImageAux oracle (r + 1) rc =
      ((analyzeImageAux oracle r (rc + 1)).1,
        2 ^ (rc + 1) :: (analyzeImageAux oracle r (rc + 1)).2) := by
  rw [analyzeImageAux, h]

/-- Behaviour of the retry loop from an arbitrary `retry_count`: the number
of backoff waits is bounded by the remaining retries, the `k`-th wait is
`2 ^ (retry_count + k + 1)` seconds, and the result is either a successful
attempt's text or an `"Error: "`-tagged string. -/
lemma analyzeImageAux_spec (oracle : AttemptOracle) :
    ∀ (remaining rc : Nat),
      (analyzeImageAux oracle remaining rc).2.length ≤ remaining
      ∧ (analyzeImageAux oracle remaining rc).2
          = (List.range (analyzeImageAux oracle remaining rc).2.length).map
              (fun k => 2 ^ (rc + k + 1))
      ∧ ((∃ k, rc ≤ k ∧ k ≤ rc + remaining
            ∧ oracle k = .ok (analyzeImageAux oracle remaining rc).1)
          ∨ ∃ e, (analyzeImageAux oracle remaining rc).1 = "Error: " ++ e) := by
  intro remaining
  induction remaining with
  | zero =>
    intro rc
    cases h : oracle rc with
    | ok s =>
      rw [analyzeImageAux_ok 0 h]
      exact ⟨by simp, by simp, Or.inl ⟨rc, le_refl rc, by omega, h⟩⟩
    | error e =>
      rw [analyzeImageAux_error_zero h]
      exact ⟨by simp, by simp, Or.inr ⟨e, rfl⟩⟩
  | succ r ih =>
    intro rc
    cases h : oracle rc with
    | ok s =>
      rw [analyzeImageAux_ok (r + 1) h]
      exact ⟨by simp, by simp, Or.inl ⟨rc, le_refl rc, by omega, h⟩⟩
    | error e =>
      obtain ⟨ih1, ih2, ih3⟩ := ih (rc + 1)
      rw [analyzeImageAux_error_succ r h]
      refine ⟨by simpa using ih1, ?_, ?_⟩
      · simp only [List.length_cons]
        rw [List.range_succ_eq_map]
        simp only [List.map_cons, List.map_map]
        have hfun : ((fun k => 2 ^ (rc + k + 1)) ∘ Nat.succ)
            = fun k => 2 ^ (rc + 1 + k + 1) := by
          funext k
          simp only [Function.comp_apply, Nat.succ_eq_add_one]
          congr 1
          omega
        rw [hfun]
        refine congrArg₂ List.cons ?_ ih2
        simp
      · rcases ih3 with ⟨k, hk1, hk2, hk3⟩ | ⟨e', he'⟩
        · exact Or.inl ⟨k, by omega, by omega, hk3⟩
        · exact Or.inr ⟨e', he'⟩

/-- C6: `GeminiWrapper.analyze_image` performs at most `max_retries` retries
beyond the first attempt (at most 2 with the constructor default), waits
`2 ^ k` seconds before the `k`-th retry (2s, then 4s, ...), and its result
is either the text of a successful attempt within the budget or a string
starting with `"Error:"` — the call always terminates with a string rather
than raising. -/
theorem C6_retry_bounded_backoff :
    ∀ (oracle : AttemptOracle) (max_retries : Nat),
      (analyze_image oracle max_retries).2.length ≤ max_retries
      ∧ (analyze_image oracle).2.length ≤ 2
      ∧ (analyze_image oracle max_retries).2
          = (List.range (analyze_image oracle max_retries).2.length).map
              (fun k => 2 ^ (k + 1))
      ∧ ((∃ k ≤ max_retries,
            oracle k = .ok (analyze_image oracle max_retries).1)
          ∨ startsWithStr (analyze_image oracle max_retries).1 "Error:"
              = true) := by
  intro oracle max_retries
  obtain ⟨h1, h2, h3⟩ := analyzeImageAux_spec oracle max_retries 0
  obtain ⟨h1d, _, _⟩ := analyzeImageAux_spec oracle 2 0
  refine ⟨h1, h1d, ?_, ?_⟩
  · unfold analyze_image
    rw [h2]
    simp only [List.length_map, List.length_range]
    apply List.map_congr_left
    intro k _
    congr 1
    omega
  · rcases h3 with ⟨k, _, hk2, hk3⟩ | ⟨e, he⟩
    · exact Or.inl ⟨k, by omega, hk3⟩
    · exact Or.inr (by rw [analyze_image, he]; exact startsWithStr_error_tag e)

/-! ## C5 — region ranking determinism -/

lemma mem_insertByAreaDesc {a x : Region} :
    ∀ {l : List Region}, x ∈ insertByAreaDesc a l → x = a ∨ x ∈ l := by
  intro l
  induction l with
  | nil =>
    intro h
    simpa [insertByAreaDesc] using h
  | cons b bs ih =>
    intro h
    by_cases hc : regionArea b ≤ regionArea a
    · rw [insertByAreaDesc, if_pos hc] at h
      rcases List.mem_cons.mp h with h1 | h2
      · exact Or.inl h1
      · exact Or.inr h2
    · rw [insertByAreaDesc, if_neg hc] at h
      rcases List.mem_cons.mp h with h1 | h2
      · exact Or.inr (h1 ▸ List.mem_cons_self b bs)
      · rcases ih h2 with h3 | h4
        · exact Or.inl h3
        · exact Or.inr (List.mem_cons_of_mem b h4)

lemma pairwise_insertByAreaDesc {a : Region} :
    ∀ {l : List Region},
      l.Pairwise (fun u v => regionArea v ≤ regionArea u) →
      (insertByAreaDesc a l).Pairwise
        (fun u v => regionArea v ≤ regionArea u) := by
  intro l
  induction l with
  | nil =>
    intro _
    simp [insertByAreaDesc]
  | cons b bs ih =>
    intro h
    rw [List.pairwise_cons] at h
    obtain ⟨hb, hbs⟩ := h
    by_cases hc : regionArea b ≤ regionArea a
    · rw [insertByAreaDesc, if_pos hc, List.pairwise_cons]
      refine ⟨?_, List.pairwise_cons.mpr ⟨hb, hbs⟩⟩
      intro y hy
      rcases List.mem_cons.mp hy with h1 | h2
      · exact h1 ▸ hc
      · exact le_trans (hb y h2) hc
    · rw [insertByAreaDesc, if_neg hc, List.pairwise_cons]
      refine ⟨?_, ih hbs⟩
      intro y hy
      rcases mem_insertByAreaDesc hy with h1 | h2
      · subst h1
        omega
      · exact hb y h2

lemma sortRegionsByArea_sorted (rs : List Region) :
    (sortRegionsByArea rs).Pairwise
      (fun u v => regionArea v ≤ regionArea u) := by
  unfold sortRegionsByArea
  induction rs with
  | nil => simp
  | cons r rs ih => exact pairwise_insertByAreaDesc ih

lemma length_insertByAreaDesc (a : Region) :
    ∀ (l : List Region), (insertByAreaDesc a l).length = l.length + 1 := by
  intro l
  induction l with
  | nil => rfl
  | cons b bs ih =>
    by_cases hc : regionArea b ≤ regionArea a
    · rw [insertByAreaDesc, if_pos hc]
      simp
    · rw [insertByAreaDesc, if_neg hc]
      simp [ih]

lemma length_sortRegionsByArea (rs : List Region) :
    (sortRegionsByArea rs).length = rs.length := by
  unfold sortRegionsByArea
  induction rs with
  | nil => rfl
  | cons r rs ih =>
    rw [List.foldr_cons, length_insertByAreaDesc, ih, List.length_cons]

/-- C5: the candidate regions are stably sorted by pixel area, descending
(`sorted(..., key=area, reverse=True)`), and exactly the top
`min 2 (number of regions)` are selected.  For areas `[100, 50, 200]`, the
regions of area 200 and 100 are selected, in that order; equal areas keep
the detector's original order. -/
theorem C5_region_ranking_determinism :
    regionsToAnalyze [regionA100, regionB50, regionC200]
        = [regionC200, regionA100]
    ∧ regionArea regionA100 = 100 ∧ regionArea regionB50 = 50
    ∧ regionArea regionC200 = 200
    ∧ regionsToAnalyze [tieFirst, tieSecond, tieSmall]
        = [tieFirst, tieSecond]
    ∧ regionArea tieFirst = regionArea tieSecond
    ∧ (∀ rs : List Region, (regionsToAnalyze rs).length = min 2 rs.length)
    ∧ (∀ rs : List Region,
        (sortRegionsByArea rs).Pairwise
          (fun u v => regionArea v ≤ regionArea u)) := by
  refine ⟨by decide, by decide, by decide, by decide, by decide, by decide,
    ?_, sortRegionsByArea_sorted⟩
  intro rs
  rw [regionsToAnalyze, List.length_take, length_sortRegionsByArea]
  omega

/-! ## C2 — full-frame fallback -/

lemma analyze_region_fullframe (describe : Describer) (frame : Frame)
    (idx : Nat) (s : String)
    (hw : 0 < frame.width) (hh : 0 < frame.height)
    (hs : describe ⟨0, 0, (frame.width : Int), (frame.height : Int)⟩
      = .returns s)
    (herr : startsWithStr s "Error:" = false) :
    analyze_region describe frame
        ⟨0, 0, (frame.width : Int), (frame.height : Int)⟩ idx =
      some
        { id := idx + 1
          title := subjectMarker s ++ "Whiteboard Analysis"
          fact := if s.length < 100 then s else s.take 97 ++ "..."
          full_text := s
          boundingBox := ⟨0, 0, 1, 1⟩
          confidence := some 1 } := by
  have hw' : (0 : Int) < (frame.width : Int) := by exact_mod_cast hw
  have hh' : (0 : Int) < (frame.height : Int) := by exact_mod_cast hh
  unfold analyze_region clampToFrame
  simp only [max_self, min_self]
  rw [if_neg (by push_neg; omega)]
  rw [hs]
  simp only [herr, Bool.false_eq_true, if_false]
  have hwq : ((frame.width : ℚ)) ≠ 0 := by exact_mod_cast hw.ne'
  have hhq : ((frame.height : ℚ)) ≠ 0 := by exact_mod_cast hh.ne'
  simp only [Int.cast_zero, Int.cast_natCast, zero_div, sub_zero]
  rw [div_self hwq, div_self hhq]

lemma enum_singleton {α : Type _} (x : α) : [x].enum = [(0, x)] := rfl

/-- When the detector stage leaves only the full-frame region, the server
pass analyzes exactly the whole frame. -/
lemma process_image_core_fullframe (describe : Describer)
    (det : DetectorOutcome) (elapsed : ℚ) (frame : Frame) (s : String)
    (hdet : detect_text frame det = []
      ∨ detect_text frame det = [fullFrameRegion frame])
    (hw : 0 < frame.width) (hh : 0 < frame.height)
    (hs : describe ⟨0, 0, (frame.width : Int), (frame.height : Int)⟩
      = .returns s)
    (herr : startsWithStr s "Error:" = false) :
    process_image_core describe det elapsed frame
      = .success elapsed [fullFrameDetection s] := by
  have hstep : analyze_region describe frame
      (fullFrameRegion frame).box 0 = some (fullFrameDetection s) := by
    rw [show (fullFrameRegion frame).box
        = ⟨0, 0, (frame.width : Int), (frame.height : Int)⟩ from rfl]
    rw [analyze_region_fullframe describe frame 0 s hw hh hs herr]
    rfl
  unfold process_image_core
  rcases hdet with h | h <;>
    simp only [h, List.isEmpty_nil, List.isEmpty_cons, if_true, if_false,
      Bool.false_eq_true, regionsToAnalyze, sortRegionsByArea, List.foldr,
      insertByAreaDesc, List.length_cons, List.length_nil] <;>
    rw [show min 2 1 = 1 from rfl] <;>
    simp only [List.take, enum_singleton, List.filterMap, hstep] <;>
    rfl

/-- C2 counterexample: the threaded `Analyzer` pass, given a detector that
returns an empty region list (a failed model), publishes an empty batch —
even though the describer would have succeeded on the whole frame — instead
of a batch derived from describing the entire original frame. -/
theorem C2_counterexample :
    analyzer_analyze (fun _ => .returns "math notes") ⟨640, 480⟩ .failure = []
    ∧ (fun _ => DescriberOutcome.returns "math notes" : Describer)
        ⟨0, 0, 640, 480⟩ = .returns "math notes" :=
  ⟨rfl, rfl⟩

/-- C2 (amended): in the server's `process_image`, when the detector stage
yields an empty list (failure) or the full-frame fallback region (zero raw
detections), the returned batch is exactly the result of describing the
entire original frame; the threaded `Analyzer` pass, however, publishes an
empty batch when the detector returns an empty region list. -/
theorem C2_full_frame_fallback_amended :
    (∀ (describe : Describer) (det : DetectorOutcome) (elapsed : ℚ)
        (frame : Frame) (s : String),
      (detect_text frame det = []
          ∨ detect_text frame det = [fullFrameRegion frame]) →
      0 < frame.width → 0 < frame.height →
      describe ⟨0, 0, (frame.width : Int), (frame.height : Int)⟩
          = .returns s →
      startsWithStr s "Error:" = false →
      (process_image describe det elapsed false (.image (some frame))).1
          = .success elapsed [fullFrameDetection s]
        ∧ (fullFrameDetection s).full_text = s
        ∧ (fullFrameDetection s).boundingBox = ⟨0, 0, 1, 1⟩)
    ∧ (∀ (describe : Describer) (frame : Frame),
        analyzer_analyze describe frame .failure = []) := by
  constructor
  · intro describe det elapsed frame s hdet hw hh hs herr
    refine ⟨?_, rfl, rfl⟩
    show process_image_core describe det elapsed frame = _
    exact process_image_core_fullframe describe det elapsed frame s
      hdet hw hh hs herr
  · intro describe frame
    rfl

/-- C2 witness: the amended statement at a concrete input — a 640×480
frame, a failed detector, and a describer answering `"math notes"`. -/
theorem C2_full_frame_fallback_witness :
    (process_image (fun _ => .returns "math notes") .failure 1 false
        (.image (some ⟨640, 480⟩))).1
      = .success 1 [fullFrameDetection "math notes"] :=
  (C2_full_frame_fallback_amended.1 (fun _ => .returns "math notes")
    .failure 1 ⟨640, 480⟩ "math notes" (Or.inl rfl) (by norm_num)
    (by norm_num) rfl (by decide)).1

/-! ## C4 — per-region isolation -/

/-- C4: a per-region describer failure is skipped and the batch contains
exactly the successful regions' results.  In general, a result is in the
`Analyzer` batch exactly when some selected region's analysis step returned
it; concretely, with two selected regions where region 1's description
fails (error-tagged) and region 2's succeeds, both the server's
`process_image` and the threaded `Analyzer` publish exactly one result —
region 2's. -/
theorem C4_per_region_isolation :
    (∀ (describe : Describer) (frame : Frame) (r0 : Region)
        (rs : List Region) (v : CamResult),
      v ∈ analyzer_analyze describe frame (.found (r0 :: rs)) ↔
        ∃ p ∈ (regionsToAnalyze (r0 :: rs)).enum,
          analyzer_region_step describe frame p.1 p.2 = some v)
    ∧ ((process_image isolationDescriber
          (.found [isolationRegion1, isolationRegion2]) 1 false
          (.image (some ⟨100, 100⟩))).1.detections.map
            (fun d => (d.id, d.full_text, d.confidence))
        = [(2, "a solved equation", some 1)])
    ∧ (analyzer_analyze isolationDescriber ⟨100, 100⟩
          (.found [isolationRegion1, isolationRegion2])
        = [⟨"📐 a solved equation", ⟨0, 0, 50, 50⟩, "a solved equation",
            1, 1⟩]) := by
  refine ⟨?_, by decide, by decide⟩
  intro describe frame r0 rs v
  unfold analyzer_analyze
  rw [show detect_text frame (.found (r0 :: rs)) = r0 :: rs from by
    simp [detect_text]]
  simp only [List.isEmpty_cons, Bool.false_eq_true, if_false]
  exact List.mem_filterMap


/-! ## C7 — display-label truncation -/

set_option maxRecDepth 8192 in
/-- C7 counterexample: for a 90-character response, the server's
`analyze_region` result contains the response untruncated in its `fact`
field (and `full_text`), and no field of the result holds the 80-character
truncation — the computed `display_label` is discarded. -/
theorem C7_truncation_counterexample :
    ((analyze_region (fun _ => .returns resp90) ⟨100, 100⟩
        ⟨0, 0, 100, 100⟩ 0).map
          (fun d => (d.title, d.fact, d.full_text))
      = some ("Whiteboard Analysis", resp90, resp90))
    ∧ resp90.length = 90
    ∧ 80 < resp90.length
    ∧ resp90.take 77 ++ "..." ≠ resp90 :=
  ⟨by decide, by decide, by decide, by decide⟩

/-- C7 (amended): in the threaded `Analyzer`, each result's `label` is the
subject marker followed by the response truncated to the 80-character
budget (first 77 characters plus an ellipsis when longer than 80), and
`full_text` is the describer's response verbatim.  In the server's
`analyze_region`, the 80-character `display_label` is computed but unused:
the result's `fact` field truncates only responses of 100 or more
characters (first 97 plus an ellipsis), while `full_text` again retains
the untruncated response. -/
theorem C7_truncation_amended :
    (∀ (describe : Describer) (frame : Frame) (idx : Nat) (r : Region)
        (c : CamResult),
      analyzer_region_step describe frame idx r = some c →
        describe ⟨max 0 (r.box.x1 - 10), max 0 (r.box.y1 - 10),
            min (frame.width : Int) (r.box.x2 + 10),
            min (frame.height : Int) (r.box.y2 + 10)⟩
            = .returns c.full_text
        ∧ c.label = subjectMarker c.full_text ++
            (if c.full_text.length > 80 then c.full_text.take 77 ++ "..."
             else c.full_text))
    ∧ (∀ (describe : Describer) (frame : Frame) (box : Box) (idx : Nat)
        (d : Detection),
      analyze_region describe frame box idx = some d →
        describe (clampToFrame frame box) = .returns d.full_text
        ∧ d.fact = (if d.full_text.length < 100 then d.full_text
                    else d.full_text.take 97 ++ "...")) := by
  constructor
  · intro describe frame idx r c h
    simp only [analyzer_region_step] at h
    split at h
    · exact absurd h (by simp)
    · cases hds : describe ⟨max 0 (r.box.x1 - 10), max 0 (r.box.y1 - 10),
          min (frame.width : Int) (r.box.x2 + 10),
          min (frame.height : Int) (r.box.y2 + 10)⟩ with
      | raises => rw [hds] at h; exact absurd h (by simp)
      | returns response =>
        rw [hds] at h
        simp only at h
        split at h
        · exact absurd h (by simp)
        · rw [Option.some_inj] at h
          subst h
          refine ⟨rfl, ?_⟩
          show (if response.length > 80
              then subjectMarker response ++ response.take 77 ++ "..."
              else subjectMarker response ++ response)
            = subjectMarker response ++
              (if response.length > 80 then response.take 77 ++ "..."
               else response)
          split
          · exact String.append_assoc _ _ _
          · rfl
  · intro describe frame box idx d h
    simp only [analyze_region] at h
    split at h
    · exact absurd h (by simp)
    · cases hds : describe (clampToFrame frame box) with
      | raises => rw [hds] at h; exact absurd h (by simp)
      | returns response =>
        rw [hds] at h
        simp only at h
        split at h
        · exact absurd h (by simp)
        · rw [Option.some_inj] at h
          subst h
          exact ⟨rfl, rfl⟩

set_option maxRecDepth 8192 in
/-- C7 witness: the amended statement at concrete inputs — the 90-character
response through the analyzer step (region of box `(0,0,50,50)` in a
100×100 frame) and through the server's `analyze_region` on the full
frame. -/
theorem C7_truncation_witness :
    (analyzer_region_step (fun _ => .returns resp90) ⟨100, 100⟩ 0
        isolationRegion2 = some cam90)
    ∧ cam90.label = subjectMarker cam90.full_text ++
        (if cam90.full_text.length > 80 then cam90.full_text.take 77 ++ "..."
         else cam90.full_text)
    ∧ (analyze_region (fun _ => .returns resp90) ⟨100, 100⟩
        ⟨0, 0, 100, 100⟩ 0 = some det90)
    ∧ det90.fact = (if det90.full_text.length < 100 then det90.full_text
        else det90.full_text.take 97 ++ "...") := by
  have h1 : analyzer_region_step (fun _ => .returns resp90) ⟨100, 100⟩ 0
      isolationRegion2 = some cam90 := by decide
  have h2 : analyze_region (fun _ => .returns resp90) ⟨100, 100⟩
      ⟨0, 0, 100, 100⟩ 0 = some det90 :=
    analyze_region_fullframe (fun _ => .returns resp90) ⟨100, 100⟩ 0 resp90
      (by norm_num) (by norm_num) rfl (by decide)
  exact ⟨h1,
    (C7_truncation_amended.1 _ ⟨100, 100⟩ 0 isolationRegion2 cam90 h1).2,
    h2,
    (C7_truncation_amended.2 _ ⟨100, 100⟩ ⟨0, 0, 100, 100⟩ 0 det90 h2).2⟩

/-! ## C8 / C9 — HTTP contract and the is_analyzing flag -/

lemma process_image_core_cases (describe : Describer) (det : DetectorOutcome)
    (elapsed : ℚ) (frame : Frame) :
    (∃ dets, process_image_core describe det elapsed frame
        = .success elapsed dets)
    ∨ process_image_core describe det elapsed frame = .serverError := by
  simp only [process_image_core]
  split
  · split
    · split
      · exact Or.inr rfl
      · split
        · exact Or.inl ⟨[], rfl⟩
        · exact Or.inl ⟨_, rfl⟩
    · exact Or.inl ⟨_, rfl⟩
  · split
    · split
      · exact Or.inr rfl
      · split
        · exact Or.inl ⟨[], rfl⟩
        · exact Or.inl ⟨_, rfl⟩
    · exact Or.inl ⟨_, rfl⟩

/-- A handler entered with `is_analyzing = False` never answers 429. -/
lemma process_image_false_not_busy (describe : Describer)
    (det : DetectorOutcome) (elapsed : ℚ) (body : ReqBody) :
    ProcResponse.isBusy (process_image describe det elapsed false body).1
      = false := by
  cases body with
  | raisesOnAccess => rfl
  | noImage => rfl
  | image o =>
    cases o with
    | none => rfl
    | some frame =>
      show ProcResponse.isBusy (process_image_core describe det elapsed frame)
        = false
      rcases process_image_core_cases describe det elapsed frame with
        ⟨dets, hd⟩ | hd <;> rw [hd] <;> rfl

/-- C8: `process_image` answers 429 with status `"busy"` when a pass is in
flight; 400 when the image field is missing or the bytes cannot be decoded;
500 when the request body access raises; and otherwise a 200 success with
the measured `processingTime` and a detections list — or a 500 when an
uncaught describer exception escapes the whole-image fallback branch. -/
theorem C8_http_response_contract :
    ∀ (describe : Describer) (det : DetectorOutcome) (elapsed : ℚ)
      (body : ReqBody) (frame : Frame),
      ((process_image describe det elapsed true body).1 = .busy
        ∧ ProcResponse.code .busy = 429
        ∧ ProcResponse.statusField .busy = "busy")
      ∧ ((process_image describe det elapsed false .noImage).1.code = 400)
      ∧ ((process_image describe det elapsed false (.image none)).1.code
          = 400)
      ∧ ((process_image describe det elapsed false .raisesOnAccess).1.code
          = 500)
      ∧ ((∃ dets,
            (process_image describe det elapsed false
                (.image (some frame))).1 = .success elapsed dets
            ∧ ProcResponse.code (.success elapsed dets) = 200
            ∧ ProcResponse.statusField (.success elapsed dets) = "success")
          ∨ ((process_image describe det elapsed false
                (.image (some frame))).1 = .serverError
            ∧ ProcResponse.code .serverError = 500)) := by
  intro describe det elapsed body frame
  refine ⟨⟨rfl, rfl, rfl⟩, rfl, rfl, rfl, ?_⟩
  rcases process_image_core_cases describe det elapsed frame with
    ⟨dets, hd⟩ | hd
  · exact Or.inl ⟨dets, hd, rfl, rfl⟩
  · exact Or.inr ⟨hd, rfl⟩

/-- C9: every return path of `process_image` — including the 429 busy
rejection — leaves the global `is_analyzing` flag `False` (the `finally`
block), so a request rejected as busy clears the flag set by the
still-running pass and the next request is not rejected as busy. -/
theorem C9_finally_clears_busy_flag :
    (∀ (describe : Describer) (det : DetectorOutcome) (elapsed : ℚ)
        (b : Bool) (body : ReqBody),
      (process_image describe det elapsed b body).2 = false)
    ∧ (∀ (describe : Describer) (det : DetectorOutcome) (elapsed : ℚ)
        (body : ReqBody),
      (process_image describe det elapsed true body).1 = .busy)
    ∧ (∀ (describe describe2 : Describer) (det det2 : DetectorOutcome)
        (elapsed elapsed2 : ℚ) (body body2 : ReqBody),
      ProcResponse.isBusy
          (process_image describe2 det2 elapsed2
            ((process_image describe det elapsed true body).2) body2).1
        = false) := by
  refine ⟨fun _ _ _ _ _ => rfl, fun _ _ _ _ => rfl, ?_⟩
  intro describe describe2 det det2 elapsed elapsed2 body body2
  exact process_image_false_not_busy describe2 det2 elapsed2 body2

/-! ## C10 — whole-image fallback detection shape -/

set_option maxRecDepth 8192 in
/-- C10: the whole-image fallback detection carries the hard-coded
bounding box `{x:0.1, y:0.1, width:0.8, height:0.8}` and no confidence
field, while each per-region result carries `confidence = 1.0` and a box
normalized from the clamped region; and the fallback path of
`process_image` (region analysis fails, whole-image describe succeeds)
returns exactly one such fallback detection. -/
theorem C10_fallback_detection_shape :
    (∀ s : String,
      (wholeImageFallbackDetection s).boundingBox
          = ⟨1/10, 1/10, 8/10, 8/10⟩
        ∧ (wholeImageFallbackDetection s).confidence = none)
    ∧ (∀ (describe : Describer) (frame : Frame) (box : Box) (idx : Nat)
        (d : Detection),
      analyze_region describe frame box idx = some d →
        d.confidence = some 1
        ∧ d.boundingBox = ⟨((clampToFrame frame box).x1 : ℚ) / frame.width,
            ((clampToFrame frame box).y1 : ℚ) / frame.height,
            (((clampToFrame frame box).x2 - (clampToFrame frame box).x1
              : Int) : ℚ) / frame.width,
            (((clampToFrame frame box).y2 - (clampToFrame frame box).y1
              : Int) : ℚ) / frame.height⟩)
    ∧ ((process_image fallbackDescriber (.found [isolationRegion1]) 1 false
          (.image (some ⟨200, 200⟩))).1
        = .success 1
            [wholeImageFallbackDetection "science diagram overview"]) := by
  refine ⟨fun s => ⟨rfl, rfl⟩, ?_, rfl⟩
  intro describe frame box idx d h
  simp only [analyze_region] at h
  split at h
  · exact absurd h (by simp)
  · cases hds : describe (clampToFrame frame box) with
    | raises => rw [hds] at h; exact absurd h (by simp)
    | returns response =>
      rw [hds] at h
      simp only at h
      split at h
      · exact absurd h (by simp)
      · rw [Option.some_inj] at h
        subst h
        exact ⟨rfl, rfl⟩

/-- C10 witness: the per-region part of the statement at a concrete input
(a full-frame region of a 50×50 frame). -/
theorem C10_fallback_detection_witness :
    (analyze_region (fun _ => .returns "a sample caption") ⟨50, 50⟩
        ⟨0, 0, 50, 50⟩ 0 = some det50)
    ∧ det50.confidence = some 1
    ∧ det50.boundingBox
        = ⟨((clampToFrame ⟨50, 50⟩ ⟨0, 0, 50, 50⟩).x1 : ℚ) / 50,
           ((clampToFrame ⟨50, 50⟩ ⟨0, 0, 50, 50⟩).y1 : ℚ) / 50,
           (((clampToFrame ⟨50, 50⟩ ⟨0, 0, 50, 50⟩).x2
             - (clampToFrame ⟨50, 50⟩ ⟨0, 0, 50, 50⟩).x1 : Int) : ℚ) / 50,
           (((clampToFrame ⟨50, 50⟩ ⟨0, 0, 50, 50⟩).y2
             - (clampToFrame ⟨50, 50⟩ ⟨0, 0, 50, 50⟩).y1 : Int) : ℚ) / 50⟩
    ∧ (wholeImageFallbackDetection "overview").confidence = none := by
  have h : analyze_region (fun _ => .returns "a sample caption") ⟨50, 50⟩
      ⟨0, 0, 50, 50⟩ 0 = some det50 :=
    analyze_region_fullframe (fun _ => .returns "a sample caption")
      ⟨50, 50⟩ 0 "a sample caption" (by norm_num) (by norm_num) rfl
      (by decide)
  obtain ⟨hc, hb⟩ := C10_fallback_detection_shape.2.1
    (fun _ => .returns "a sample caption") ⟨50, 50⟩ ⟨0, 0, 50, 50⟩ 0 det50 h
  exact ⟨h, hc, hb, (C10_fallback_detection_shape.1 "overview").2⟩

end SaintInsight
